import Mathlib

/-!
Verification development for `presidents_brief.py`.

The Python module is embedded shallowly: pure computations become Lean
functions, the two in-memory dictionaries (`users`, `daily_requests`)
become functional maps `String → Option α`, calls to external services
(spreadsheet fetch, text-generation endpoint, PDF backend, SMTP,
`os.remove`) become explicit oracle parameters returning `Except`/`Bool`
results, and `datetime.now().strftime(...)` becomes an injected date
string.  Python string primitives used by the module (`split`, `strip`,
`replace`, `join`, truthiness of strings, `x or y`) are given structural
Lean translations so that everything evaluates by kernel reduction.
-/

set_option maxRecDepth 8192

/-- Python `s.split(sep)` for a one-character separator, accumulator form. -/
def splitChAux (sep : Char) : List Char → List Char → List String
  | [], cur => [String.mk cur.reverse]
  | c :: cs, cur =>
      if c = sep then String.mk cur.reverse :: splitChAux sep cs []
      else splitChAux sep cs (c :: cur)

/-- Python `s.split(sep)` for a one-character separator (e.g. `':'`, `';'`).
`"".split(':') = ['']`, `"a:".split(':') = ['a','']`, exactly as in Python. -/
def pySplitCh (sep : Char) (s : String) : List String :=
  splitChAux sep s.toList []

/-- Python `s.split('\n\n')`: splits on non-overlapping occurrences of a
double newline, left to right, accumulator form. -/
def splitBlankAux : List Char → List Char → List String
  | [], cur => [String.mk cur.reverse]
  | '\n' :: '\n' :: cs, cur => String.mk cur.reverse :: splitBlankAux cs []
  | c :: cs, cur => splitBlankAux cs (c :: cur)

/-- Python `content.split('\n\n')`. -/
def pySplitBlank (s : String) : List String :=
  splitBlankAux s.toList []

/-- Python whitespace as recognised by `str.strip()` (ASCII range). -/
def isPySpace (c : Char) : Bool :=
  c = ' ' || c = '\t' || c = '\n' || c = '\r' || c = '\x0b' || c = '\x0c'

/-- Python `s.strip()`. -/
def pyStrip (s : String) : String :=
  String.mk (((s.toList.dropWhile isPySpace).reverse.dropWhile isPySpace).reverse)

/-- Python `sep.join(xs)`. -/
def pyJoin (sep : String) : List String → String
  | [] => ""
  | [x] => x
  | x :: y :: xs => x ++ sep ++ pyJoin sep (y :: xs)

/-- Replace every newline with the literal `<br/>`, character-list form
(Python `section.replace('\n', '<br/>')`). -/
def brTagged : List Char → List Char
  | [] => []
  | '\n' :: cs => '<' :: 'b' :: 'r' :: '/' :: '>' :: brTagged cs
  | c :: cs => c :: brTagged cs

/-- Python `section.replace('\n', '<br/>')`. -/
def pyReplaceNewline (s : String) : String := String.mk (brTagged s.toList)

/-- Python `s or d` for strings (`d` if `s` is falsy, i.e. empty). -/
def pyOrStr (s d : String) : String := if s = "" then d else s

/-- Python `o or d` where `o` is an optional string (`None` and `""` are
both falsy). -/
def pyOrOpt (o : Option String) (d : String) : String :=
  match o with
  | none => d
  | some s => if s = "" then d else s

/-- A Python dict keyed by strings, as a functional map. -/
abbrev Dict (α : Type) := String → Option α

/-- Python `d[k] = v`. -/
def dictInsert {α : Type} (d : Dict α) (k : String) (v : α) : Dict α :=
  fun q => if q = k then some v else d q

/-- The module-level `daily_requests` dict (phone → pending text). -/
abbrev ReqStore := Dict String

/-- The Pending Request Store write `daily_requests[from_number] = message`
(line 210 of the source). -/
def record (s : ReqStore) (phone text : String) : ReqStore :=
  dictInsert s phone text

/-- The Pending Request Store read-and-clear
`daily_requests.pop(phone, None)` (line 228 of the source): returns the
stored value (or `none`) together with the store with that key removed. -/
def take (s : ReqStore) (phone : String) : Option String × ReqStore :=
  (s phone, fun q => if q = phone then none else s q)

/-- Claim C1: after `record phone text`, a `take phone` returns exactly
`text`, and an immediately following second `take phone` returns the
absence marker `none`; and `take phone` on a store with no entry for
`phone` returns `none` and leaves the store equal to itself (and, being a
total function, never raises). -/
theorem pending_request_store_single_consumption :
    ∀ (s : ReqStore) (phone text : String),
      (take (record s phone text) phone).1 = some text
      ∧ (take ((take (record s phone text) phone).2) phone).1 = none
      ∧ (s phone = none → take s phone = (none, s)) := by
  intro s phone text
  refine ⟨?_, ?_, ?_⟩
  · simp [take, record, dictInsert]
  · simp [take, record, dictInsert]
  · intro h
    have h2 : (fun q => if q = phone then none else s q) = s := by
      funext q
      by_cases hq : q = phone
      · subst hq; simp [h]
      · simp [hq]
    simp [take, h, h2]

/-- Witness for C1 at a concrete store, phone and text. -/
theorem pending_request_store_single_consumption_witness :
    (take (record (fun _ => none) "+15551234567" "focus on tech") "+15551234567").1
        = some "focus on tech"
    ∧ (take ((take (record (fun _ => none) "+15551234567" "focus on tech") "+15551234567").2)
        "+15551234567").1 = none
    ∧ take (fun _ => none) "+15551234567" = (none, (fun _ => none)) := by
  have h := pending_request_store_single_consumption (fun _ => none) "+15551234567" "focus on tech"
  exact ⟨h.1, h.2.1, h.2.2 rfl⟩

/-- A row of the Google Sheet as returned by `get_all_records()`.  A key
missing from the sheet is modelled as the empty string, which is
equivalent for this module: every access is `row.get(key)` (falsy for
both a missing key and `''`) or `row.get(key, '')`. -/
structure Row where
  Background : String
  Interests : String
  Phone : String
  Email : String
  PreferredSources : String
  deriving DecidableEq

/-- The `User` class. -/
structure User where
  background : String
  interests : List String
  phone : String
  email : String
  sources : List String
  deriving DecidableEq

/-- `User.__init__`: interests and preferred sources are split on `';'`,
stripped, and empty pieces dropped. -/
def User.ofRow (row : Row) : User :=
  ⟨row.Background,
   ((pySplitCh ';' row.Interests).map pyStrip).filter (fun i => i ≠ ""),
   row.Phone,
   row.Email,
   ((pySplitCh ';' row.PreferredSources).map pyStrip).filter (fun t => t ≠ "")⟩

/-- One iteration of the row loop in `load_users`: skip the row when
`Phone` or `Email` is falsy, otherwise insert `User(row)` keyed by its
phone.  (The inner per-row `except` clause of the source is unreachable
in the model because `User.ofRow` is total.) -/
def insertRow (new_users : Dict User) (row : Row) : Dict User :=
  if row.Phone = "" ∨ row.Email = "" then new_users
  else
    let user := User.ofRow row
    dictInsert new_users user.phone user

/-- The `new_users` dict built by `load_users` from the fetched records. -/
def buildUsers (records : List Row) : Dict User :=
  records.foldl insertRow (fun _ => none)

/-- `load_users`.  The spreadsheet fetch
`gc.open(...).sheet1.get_all_records()` is an oracle: either the list of
rows or an exception message.  Returns the resulting `users` mapping
(the source clears and repopulates the global dict in place) together
with the log lines emitted. -/
def load_users (fetch : Except String (List Row)) (users : Dict User) :
    Dict User × List String :=
  match fetch with
  | Except.ok records => (buildUsers records, ["Loaded users"])
  | Except.error e => (users, ["Failed to load users: " ++ e])

/-- The fixed tail of the prompt template (the editorial guidelines block
of the f-string, lines 97-127 of the source). -/
def promptGuidelines : String :=
  "\n    \n    ## General Guidelines\n\n    **Story Selection & Organization**\n    - Prioritize stories based on:\n    • Global/societal impact\n    • Relevance to specified interests\n    • Time sensitivity\n    • Emerging trends and patterns\n    - Group related stories together under broader themes\n\n    **Coverage Standards**\n    For each significant story:\n    - Lead with core facts (who, what, when, where, why)\n    - Include quantitative data when available\n    - Note relevant historical context\n    - Highlight key implications\n    - Address competing interpretations when applicable\n    - Cite specific sources for all claims\n\n    **Objectivity Framework**\n    - Use precise, neutral language\n    - Separate verifiable facts from claims\n    - Indicate certainty levels (confirmed, reported, alleged)\n    - Present competing viewpoints proportionally\n    - Acknowledge limitations in available information\n\n    **When sources conflict:**\n    - Prioritize higher-scored sources\n    - Note specifically where accounts differ\n    - Identify potential reasons for discrepancies\n    "

/-- The prompt f-string of `generate_briefing`:
`special_request or 'None'` renders `None` and `''` alike as the literal
marker `None`, and `', '.join(user.sources) or 'None specified'` renders
an empty join as `None specified`. -/
def briefingPrompt (user : User) (special_request : Option String) : String :=
  "\n    Create a daily news briefing for a user with these characteristics:\n    \n    Background: "
    ++ user.background
    ++ "\n    Interests: " ++ pyJoin ", " user.interests
    ++ "\n    Preferred Sources: " ++ pyOrStr (pyJoin ", " user.sources) "None specified"
    ++ "\n    \n    Today\x27s Special Request: " ++ pyOrOpt special_request "None"
    ++ promptGuidelines

/-- The JSON body posted to the text-generation endpoint: fixed model,
one user-role message holding the prompt, temperature 0.2 (encoded as
tenths to stay in exact arithmetic) and the max-token cap. -/
structure ApiRequest where
  model : String
  messageContent : String
  temperatureTenths : Nat
  max_tokens : Nat
  deriving DecidableEq

/-- The `data` dict built by `generate_briefing`. -/
def requestPayload (user : User) (special_request : Option String) : ApiRequest :=
  ⟨"pplx-70b-chat", briefingPrompt user special_request, 2, 2000⟩

/-- The fixed fallback returned by `generate_briefing` on any failure. -/
def fallbackText : String := "Error generating briefing. Please try again later."

/-- Outcome of the HTTP call plus response parsing:
`Except.error e` models a network error, a non-2xx status
(`raise_for_status`) or a JSON decoding error; `Except.ok none` models a
2xx response whose body lacks `choices[0].message.content`;
`Except.ok (some content)` is a well-formed success. -/
abbrev ApiResult := Except String (Option String)

/-- `generate_briefing`: builds the payload, calls the endpoint, and on
any failure path returns the fixed fallback string instead of raising. -/
def generate_briefing (api : ApiRequest → ApiResult) (user : User)
    (special_request : Option String) : String :=
  match api (requestPayload user special_request) with
  | Except.ok (some content) => content
  | Except.ok none => fallbackText
  | Except.error _ => fallbackText

/-- Discriminates the failure outcomes of the endpoint call. -/
def isApiFailure : ApiResult → Bool
  | Except.ok (some _) => false
  | Except.ok none => true
  | Except.error _ => true

/-- A flowable of the rendered document: the title paragraph or a body
paragraph. -/
inductive Block where
  | title (text : String)
  | para (text : String)
  deriving DecidableEq

/-- One iteration of the content loop in `create_pdf`: a section is
appended as a body paragraph (newlines turned into `<br/>`) only when its
stripped form is non-empty. -/
def appendSection (story : List Block) (sec : String) : List Block :=
  if pyStrip sec ≠ "" then story ++ [Block.para (pyReplaceNewline sec)] else story

/-- `create_pdf`: the story list handed to `doc.build`, with the current
date string injected as `today`. -/
def create_pdf (content : String) (today : String) : List Block :=
  (pySplitBlank content).foldl appendSection [Block.title ("Daily Brief - " ++ today)]

/-- `request.form.get('From', '').split(':')[1]` — `none` models the
`IndexError` raised when there is no second segment. -/
def extractFromNumber (fromField : String) : Option String :=
  (pySplitCh ':' fromField)[1]?

/-- Acknowledgment payload of the webhook. -/
def ackPayload : String :=
  "<Response><Message>Request received! You\x27ll get it in your next briefing.</Message></Response>"

/-- Rejection payload of the webhook for unregistered numbers. -/
def rejectPayload : String :=
  "<Response><Message>⚠️ Not a registered user</Message></Response>"

/-- Generic error payload of the webhook. -/
def errorPayload : String :=
  "<Response><Message>Error processing request</Message></Response>"

/-- `handle_whatsapp`: extracts the phone, strips the body, checks
membership in the directory, and either records the message or rejects;
an extraction failure is caught and answered with the error payload. -/
def handle_whatsapp (fromField bodyField : String) (users : Dict User)
    (reqs : ReqStore) : String × ReqStore :=
  match extractFromNumber fromField with
  | none => (errorPayload, reqs)
  | some from_number =>
      let message := pyStrip bodyField
      if (users from_number).isSome then
        (ackPayload, record reqs from_number message)
      else
        (rejectPayload, reqs)

/-- Joins pieces back with `':'` (used to phrase the spec's reading of
the `From` field). -/
def joinColon : List String → String
  | [] => ""
  | [x] => x
  | x :: y :: xs => x ++ ":" ++ joinColon (y :: xs)

/-- The spec's wording for the phone extraction, stated for comparison
with `extractFromNumber`: "the prefix before the first `:` is stripped",
i.e. everything after the first colon; `none` when there is no colon. -/
def specPhoneAfterFirstColon (s : String) : Option String :=
  match pySplitCh ':' s with
  | [] => none
  | [_] => none
  | _ :: rest => some (joinColon rest)

/-- Per-phone / per-path outcomes of the external effects touched by
`send_daily_briefings`, plus the date strings of the run. -/
structure Env where
  api : String → ApiRequest → ApiResult
  renderOk : String → Bool
  emailOk : String → Bool
  removeOk : String → Bool
  today : String

/-- The per-user PDF filename `f"{phone}_{date}.pdf"`. -/
def pdfName (phone today : String) : String := phone ++ "_" ++ today ++ ".pdf"

/-- Observable actions of one daily-briefing run, in order. -/
inductive Event where
  | tookRequest (phone : String) (req : Option String)
  | skippedEmpty (phone : String)
  | generated (phone content : String)
  | rendered (path : String)
  | renderFailed (path : String)
  | emailSent (email : String)
  | emailFailLogged (email : String)
  | removeAttempt (path : String)
  | removed (path : String)
  | userFailLogged (phone : String)
  deriving DecidableEq

/-- The body of the per-user `try` block in `send_daily_briefings`:
pop the pending request, generate (never raises: `generate_briefing`
catches internally), skip on empty content, render (raises on failure —
`create_pdf` re-raises), notify (never raises: `send_email` catches and
logs internally), then attempt `os.remove` (raises on failure).  Returns
the events, the request store after the pop, and whether an exception
escaped the block. -/
def processUser (env : Env) (phone : String) (user : User) (reqs : ReqStore) :
    List Event × ReqStore × Bool :=
  let tr := take reqs phone
  let special_request := tr.1
  let reqs' := tr.2
  let content := generate_briefing (env.api phone) user special_request
  if content = "" then
    ([Event.tookRequest phone special_request, Event.skippedEmpty phone], reqs', false)
  else
    let path := pdfName phone env.today
    if env.renderOk path then
      ([Event.tookRequest phone special_request, Event.generated phone content,
          Event.rendered path]
         ++ (if env.emailOk user.email then [Event.emailSent user.email]
             else [Event.emailFailLogged user.email])
         ++ [Event.removeAttempt path]
         ++ (if env.removeOk path then [Event.removed path] else []),
       reqs', !env.removeOk path)
    else
      ([Event.tookRequest phone special_request, Event.generated phone content,
          Event.renderFailed path], reqs', true)

/-- The user loop of `send_daily_briefings` over the directory items
(the refresh happens before this loop; the iteration snapshot is passed
as a list of phone-user pairs).  An exception escaping a user's block is
caught and logged and the loop continues. -/
def send_daily_briefings (env : Env) :
    List (String × User) → ReqStore → List Event × ReqStore
  | [], reqs => ([], reqs)
  | (phone, user) :: rest, reqs =>
      let pr := processUser env phone user reqs
      let evs := pr.1 ++ (if pr.2.2 then [Event.userFailLogged phone] else [])
      let tl := send_daily_briefings env rest pr.2.1
      (evs ++ tl.1, tl.2)

/-- Rows that contribute an entry under key `p`: both `Phone` and `Email`
non-empty, and `Phone` equal to `p`. -/
def keptRow (p : String) (row : Row) : Bool :=
  decide (¬(row.Phone = "" ∨ row.Email = "") ∧ row.Phone = p)

/-- Folding `insertRow` over the records looks up, at key `p`, the last
record kept for `p`, falling back to the accumulator. -/
theorem foldl_insertRow_lookup :
    ∀ (records : List Row) (acc : Dict User) (p : String),
      (records.foldl insertRow acc) p
        = match (records.filter (keptRow p)).getLast? with
          | some r => some (User.ofRow r)
          | none => acc p := by
  intro records
  induction records with
  | nil => intro acc p; simp
  | cons r rs ih =>
    intro acc p
    rw [List.foldl_cons, ih]
    by_cases hk : keptRow p r = true
    · rw [List.filter_cons_of_pos hk]
      have hprops := of_decide_eq_true hk
      cases hfl : rs.filter (keptRow p) with
      | nil =>
        simp only [List.getLast?_nil, List.getLast?_singleton]
        simp only [insertRow, if_neg hprops.1]
        simp [dictInsert, User.ofRow, hprops.2]
      | cons b l =>
        rw [List.getLast?_cons_cons]
        obtain ⟨x, hx⟩ : ∃ x, (b :: l).getLast? = some x :=
          ⟨_, List.getLast?_eq_getLast (b :: l) (by simp)⟩
        rw [hx]
    · rw [List.filter_cons_of_neg hk]
      cases hfl : rs.filter (keptRow p) with
      | nil =>
        simp only [List.getLast?_nil]
        have hnot := of_decide_eq_false (Bool.not_eq_true _ ▸ hk)
        by_cases hskip : r.Phone = "" ∨ r.Email = ""
        · simp [insertRow, hskip]
        · have hphone : r.Phone ≠ p := by
            intro hp
            exact hnot ⟨hskip, hp⟩
          simp [insertRow, hskip, dictInsert, User.ofRow]
          intro hp
          exact absurd hp.symm hphone
      | cons b l =>
        obtain ⟨x, hx⟩ : ∃ x, (b :: l).getLast? = some x :=
          ⟨_, List.getLast?_eq_getLast (b :: l) (by simp)⟩
        rw [hx]

/-- `buildUsers` at key `p` is the `User` built from the last kept record
whose phone is `p`. -/
theorem buildUsers_lookup (records : List Row) (p : String) :
    buildUsers records p = ((records.filter (keptRow p)).getLast?).map User.ofRow := by
  unfold buildUsers
  rw [foldl_insertRow_lookup]
  cases (records.filter (keptRow p)).getLast? <;> rfl

/-- Claim C4: when the spreadsheet fetch fails, `load_users` leaves the
previous mapping exactly as it was and logs the error (and, being a total
function, does not raise); the mapping is replaced by the freshly built
one only on a successful fetch. -/
theorem load_users_fetch_failure_preserves_mapping :
    ∀ (users : Dict User) (e : String),
      (load_users (Except.error e) users).1 = users
      ∧ (load_users (Except.error e) users).2 = ["Failed to load users: " ++ e]
      ∧ ∀ records, (load_users (Except.ok records) users).1 = buildUsers records := by
  intro users e
  exact ⟨rfl, rfl, fun _ => rfl⟩

/-- Claim C6: after a successful refresh, every key of the resulting
directory comes from a fetched row whose `Phone` and `Email` are both
non-empty, and the stored profile is built from such a row. -/
theorem directory_keys_from_valid_rows :
    ∀ (records : List Row) (users : Dict User) (p : String) (u : User),
      (load_users (Except.ok records) users).1 p = some u →
      ∃ row, row ∈ records ∧ row.Phone = p ∧ row.Phone ≠ "" ∧ row.Email ≠ ""
        ∧ u = User.ofRow row := by
  intro records users p u h
  have h' : buildUsers records p = some u := h
  rw [buildUsers_lookup] at h'
  cases hfl : (records.filter (keptRow p)).getLast? with
  | none => rw [hfl] at h'; simp at h'
  | some r =>
    rw [hfl] at h'
    have hu : User.ofRow r = u := by simpa using h'
    have hmem : r ∈ records.filter (keptRow p) := List.mem_of_getLast?_eq_some hfl
    have hm := List.mem_filter.mp hmem
    have hprops := of_decide_eq_true hm.2
    have hne := hprops.1
    refine ⟨r, hm.1, hprops.2, ?_, ?_, hu.symm⟩
    · intro hphone; exact hne (Or.inl hphone)
    · intro hemail; exact hne (Or.inr hemail)

/-- A row with all fields set, used by concrete witnesses. -/
def rowA : Row := ⟨"Diplomat", "tech; energy", "+15551234567", "a@example.com", "Reuters"⟩

/-- A second row with the same phone as `rowA` but different profile. -/
def rowA2 : Row := ⟨"Analyst", "markets", "+15551234567", "a2@example.com", ""⟩

/-- A row lacking an email, which the refresh must skip. -/
def rowNoEmail : Row := ⟨"Ghost", "", "+15559999999", "", ""⟩

/-- Witness for C6 on a concrete fetch containing a valid and an invalid
row. -/
theorem directory_keys_from_valid_rows_witness :
    (load_users (Except.ok [rowA, rowNoEmail]) (fun _ => none)).1 "+15551234567"
        = some (User.ofRow rowA)
    ∧ ∃ row, row ∈ [rowA, rowNoEmail] ∧ row.Phone = "+15551234567" ∧ row.Phone ≠ ""
        ∧ row.Email ≠ "" ∧ User.ofRow rowA = User.ofRow row := by
  refine ⟨by decide, ?_⟩
  exact directory_keys_from_valid_rows [rowA, rowNoEmail] (fun _ => none)
    "+15551234567" (User.ofRow rowA) (by decide)

/-- Claim C9: if `r` is the last fetched row, in sheet order, that is
kept for phone `p` (both fields non-empty and `Phone = p`), then after a
successful refresh the directory maps `p` to the profile built from `r`;
in particular, with several valid rows sharing a phone, the last one wins
and earlier duplicates are discarded. -/
theorem load_users_duplicate_phone_last_wins :
    ∀ (records : List Row) (users : Dict User) (p : String) (r : Row),
      (records.filter (keptRow p)).getLast? = some r →
      (load_users (Except.ok records) users).1 p = some (User.ofRow r) := by
  intro records users p r h
  show buildUsers records p = _
  rw [buildUsers_lookup, h]
  rfl

/-- Witness for C9: two valid rows with the same phone; the directory
holds the profile of the second. -/
theorem load_users_duplicate_phone_last_wins_witness :
    ([rowA, rowA2].filter (keptRow "+15551234567")).getLast? = some rowA2
    ∧ (load_users (Except.ok [rowA, rowA2]) (fun _ => none)).1 "+15551234567"
        = some (User.ofRow rowA2) := by
  refine ⟨by decide, ?_⟩
  exact load_users_duplicate_phone_last_wins [rowA, rowA2] (fun _ => none)
    "+15551234567" rowA2 (by decide)

/-- Claim C3: whenever the call to the text-generation endpoint fails in
any modelled way — transport error, non-2xx status, JSON error
(`Except.error`) or a response lacking the expected nested field
(`Except.ok none`) — `generate_briefing` returns the fixed fallback
string; being a total function, nothing escapes the generator boundary. -/
theorem generate_briefing_fallback_on_failure :
    ∀ (api : ApiRequest → ApiResult) (user : User) (special_request : Option String),
      isApiFailure (api (requestPayload user special_request)) = true →
      generate_briefing api user special_request = fallbackText := by
  intro api user sr h
  unfold generate_briefing
  cases hres : api (requestPayload user sr) with
  | error e => rfl
  | ok o =>
    cases o with
    | none => rfl
    | some c =>
      rw [hres] at h
      simp [isApiFailure] at h

/-- A user profile built from `rowA`, used by concrete witnesses. -/
def userA : User := User.ofRow rowA

/-- Witness for C3 with an endpoint that errors out. -/
theorem generate_briefing_fallback_on_failure_witness :
    isApiFailure ((fun _ => Except.error "connection refused") (requestPayload userA none)) = true
    ∧ generate_briefing (fun _ => Except.error "connection refused") userA none = fallbackText :=
  ⟨rfl, generate_briefing_fallback_on_failure
    (fun _ => Except.error "connection refused") userA none rfl⟩

/-- Counterexample to claim C5 as stated: on a `From` field holding more
than one colon, `split(':')[1]` takes the segment between the first two
colons, not everything after the first colon as the spec words it. -/
theorem extract_from_number_not_suffix_after_first_colon :
    extractFromNumber "whatsapp:+15551234567:+1" = some "+15551234567"
    ∧ specPhoneAfterFirstColon "whatsapp:+15551234567:+1" = some "+15551234567:+1"
    ∧ (some "+15551234567" : Option String) ≠ some "+15551234567:+1" := by
  refine ⟨by decide, by decide, by decide⟩

/-- Claim C5 (amended): the handler's phone number is the second
colon-separated segment of `From`; this agrees with the spec's "everything
after the first colon" exactly when `From` contains at most one colon (and
when it contains none, extraction fails and the handler answers with the
generic error payload). -/
theorem extract_from_number_matches_spec_when_single_colon :
    ∀ (s : String), (pySplitCh ':' s).length ≤ 2 →
      extractFromNumber s = specPhoneAfterFirstColon s := by
  intro s h
  unfold extractFromNumber specPhoneAfterFirstColon
  cases hsp : pySplitCh ':' s with
  | nil => simp
  | cons a tl =>
    cases tl with
    | nil => simp
    | cons b tl2 =>
      cases tl2 with
      | nil => simp [joinColon]
      | cons c tl3 =>
        rw [hsp] at h
        simp at h

/-- Witness for amended C5 on a standard transport-prefixed sender id. -/
theorem extract_from_number_matches_spec_when_single_colon_witness :
    (pySplitCh ':' "whatsapp:+15551234567").length ≤ 2
    ∧ extractFromNumber "whatsapp:+15551234567"
        = specPhoneAfterFirstColon "whatsapp:+15551234567" :=
  ⟨by decide,
   extract_from_number_matches_spec_when_single_colon "whatsapp:+15551234567" (by decide)⟩

/-- Counterexample to claim C7 as stated: an input that is a single
whitespace-only section yields no paragraph block at all, so the rendered
document is not "exactly one paragraph block per double-newline-separated
section" — whitespace-only sections are dropped. -/
theorem create_pdf_blank_section_dropped :
    create_pdf " " "2026-10-12" = [Block.title "Daily Brief - 2026-10-12"]
    ∧ (pySplitBlank " ").length = 1 := by
  refine ⟨by decide, by decide⟩

/-- Claim C7 (amended): the rendered story is the title block carrying the
run's date string, followed by exactly one paragraph block per
double-newline-separated section of the input whose stripped form is
non-empty (whitespace-only sections are skipped), with newlines inside a
kept section turned into explicit `<br/>` breaks; in particular two
non-blank sections separated by a blank line yield two paragraph blocks. -/
theorem create_pdf_structure :
    ∀ (content today : String),
      create_pdf content today
        = Block.title ("Daily Brief - " ++ today)
          :: ((pySplitBlank content).filter (fun s => pyStrip s ≠ "")).map
              (fun s => Block.para (pyReplaceNewline s)) := by
  intro content today
  unfold create_pdf
  have aux : ∀ (secs : List String) (acc : List Block),
      secs.foldl appendSection acc
        = acc ++ (secs.filter (fun s => pyStrip s ≠ "")).map
            (fun s => Block.para (pyReplaceNewline s)) := by
    intro secs
    induction secs with
    | nil => intro acc; simp
    | cons sc rest ih =>
      intro acc
      rw [List.foldl_cons, ih]
      by_cases hsc : pyStrip sc ≠ ""
      · rw [List.filter_cons_of_pos (by simpa using hsc)]
        simp [appendSection, hsc]
      · rw [List.filter_cons_of_neg (by simpa using hsc)]
        simp [appendSection, hsc]
  rw [aux]
  simp

/-- Claim C8: a webhook call whose extracted phone number is not a key of
the directory returns the fixed rejection payload and leaves the Pending
Request Store exactly as it was (no write for any number). -/
theorem handle_whatsapp_unregistered_frame :
    ∀ (fromField bodyField : String) (users : Dict User) (reqs : ReqStore) (p : String),
      extractFromNumber fromField = some p →
      users p = none →
      handle_whatsapp fromField bodyField users reqs = (rejectPayload, reqs) := by
  intro f b users reqs p hex hu
  unfold handle_whatsapp
  rw [hex]
  simp [hu]

/-- Witness for C8: an unregistered number is rejected and the store is
untouched. -/
theorem handle_whatsapp_unregistered_frame_witness :
    extractFromNumber "whatsapp:+19998887777" = some "+19998887777"
    ∧ ((fun _ => none : Dict User) "+19998887777") = none
    ∧ handle_whatsapp "whatsapp:+19998887777" "hello" (fun _ => none) (fun _ => none)
        = (rejectPayload, (fun _ => none)) :=
  ⟨by decide, rfl,
   handle_whatsapp_unregistered_frame "whatsapp:+19998887777" "hello"
     (fun _ => none) (fun _ => none) "+19998887777" (by decide) rfl⟩

/-- Claim C10: the request payload (hence the prompt) built for an empty
special request is exactly the payload built for no special request —
`special_request or 'None'` renders both as the literal marker `None` —
and since the webhook strips the body before storing it, a
whitespace-only message produces the same payload as having sent none. -/
theorem empty_special_request_matches_none :
    ∀ (user : User) (bodyField : String),
      requestPayload user (some "") = requestPayload user none
      ∧ (pyStrip bodyField = "" →
          requestPayload user (some (pyStrip bodyField)) = requestPayload user none) := by
  intro user b
  constructor
  · rfl
  · intro h
    rw [h]
    rfl

/-- Witness for C10 on a whitespace-only webhook body. -/
theorem empty_special_request_matches_none_witness :
    pyStrip "   " = ""
    ∧ requestPayload userA (some (pyStrip "   ")) = requestPayload userA none :=
  ⟨by decide, (empty_special_request_matches_none userA "   ").2 (by decide)⟩

/-- The per-user block always begins by taking the pending request, so
its event list always contains the corresponding `tookRequest` event. -/
theorem tookRequest_mem_processUser :
    ∀ (env : Env) (phone : String) (user : User) (reqs : ReqStore),
      Event.tookRequest phone (take reqs phone).1 ∈ (processUser env phone user reqs).1 := by
  intro env phone user reqs
  unfold processUser
  by_cases h1 : generate_briefing (env.api phone) user (take reqs phone).1 = ""
  · simp [h1]
  · simp only [h1]
    by_cases h2 : env.renderOk (pdfName phone env.today) <;> simp [h1, h2]

/-- Every user of the iteration snapshot is reached by the loop: whatever
the env makes earlier users do (including raising), a `tookRequest` event
for each listed user appears in the run's trace. -/
theorem tookRequest_mem_sdb :
    ∀ (env : Env) (usersL : List (String × User)) (reqs : ReqStore)
      (phone : String) (user : User),
      (phone, user) ∈ usersL →
      ∃ r, Event.tookRequest phone r ∈ (send_daily_briefings env usersL reqs).1 := by
  intro env usersL
  induction usersL with
  | nil =>
    intro reqs phone user h
    simp at h
  | cons hd tl ih =>
    intro reqs phone user h
    obtain ⟨p0, u0⟩ := hd
    rcases List.mem_cons.mp h with heq | hmem
    · obtain ⟨h1, h2⟩ := Prod.mk.injEq .. ▸ heq
      subst h1
      subst h2
      refine ⟨(take reqs phone).1, ?_⟩
      have hm := tookRequest_mem_processUser env phone user reqs
      simp only [send_daily_briefings]
      exact List.mem_append_left _ (List.mem_append_left _ hm)
    · obtain ⟨r, hr⟩ := ih (processUser env p0 u0 reqs).2.1 phone user hmem
      refine ⟨r, ?_⟩
      simp only [send_daily_briefings]
      exact List.mem_append_right _ hr

/-- Claim C2: (a) every user of the snapshot is processed, whatever
failures the environment injects for earlier users; (b) when a user's
block ends in an exception it is caught and a failure is logged for that
user at the loop level; (c) once the PDF rendered successfully and the
content was non-empty, the deletion of the file is attempted even though
the notification step failed (`send_email` logs its own failures and does
not raise). -/
theorem sdb_per_user_failures_contained :
    ∀ (env : Env) (usersL : List (String × User)) (reqs : ReqStore)
      (phone : String) (user : User),
      ((phone, user) ∈ usersL →
        ∃ r, Event.tookRequest phone r ∈ (send_daily_briefings env usersL reqs).1)
      ∧ ((processUser env phone user reqs).2.2 = true →
          Event.userFailLogged phone
            ∈ (send_daily_briefings env ((phone, user) :: usersL) reqs).1)
      ∧ (generate_briefing (env.api phone) user (take reqs phone).1 ≠ "" →
          env.renderOk (pdfName phone env.today) = true →
          env.emailOk user.email = false →
          Event.removeAttempt (pdfName phone env.today)
            ∈ (processUser env phone user reqs).1) := by
  intro env usersL reqs phone user
  refine ⟨fun h => tookRequest_mem_sdb env usersL reqs phone user h, ?_, ?_⟩
  · intro hraised
    simp only [send_daily_briefings, hraised, if_pos]
    refine List.mem_append_left _ (List.mem_append_right _ ?_)
    simp
  · intro hcontent hrender hemail
    unfold processUser
    simp [hcontent, hrender, hemail]

/-- A second valid row with a distinct phone, for the C2 witness. -/
def rowB : Row := ⟨"Journalist", "sports", "+15550000001", "b@example.com", ""⟩

/-- The profile built from `rowB`. -/
def userB : User := User.ofRow rowB

/-- A concrete run environment: generation succeeds with fixed prose,
rendering succeeds, every notification fails (and is logged internally),
and the file deletion raises for userA's path only. -/
def envW : Env :=
  ⟨(fun _ _ => Except.ok (some "World news.")),
   (fun _ => true),
   (fun _ => false),
   (fun p => !(p == pdfName "+15551234567" "20261012")),
   "20261012"⟩

/-- Witness for C2: with userA's block raising on `os.remove` and every
notification failing, userB is still processed, userA's failure is
logged, and userB's file deletion is attempted despite the failed
notification. -/
theorem sdb_per_user_failures_contained_witness :
    (∃ r, Event.tookRequest "+15550000001" r
        ∈ (send_daily_briefings envW
            [("+15551234567", userA), ("+15550000001", userB)] (fun _ => none)).1)
    ∧ Event.userFailLogged "+15551234567"
        ∈ (send_daily_briefings envW
            [("+15551234567", userA), ("+15550000001", userB)] (fun _ => none)).1
    ∧ Event.removeAttempt (pdfName "+15550000001" "20261012")
        ∈ (processUser envW "+15550000001" userB (fun _ => none)).1 := by
  refine ⟨?_, ?_, ?_⟩
  · exact (sdb_per_user_failures_contained envW
      [("+15551234567", userA), ("+15550000001", userB)] (fun _ => none)
      "+15550000001" userB).1 (by decide)
  · exact (sdb_per_user_failures_contained envW
      [("+15550000001", userB)] (fun _ => none) "+15551234567" userA).2.1 (by decide)
  · exact (sdb_per_user_failures_contained envW [] (fun _ => none)
      "+15550000001" userB).2.2 (by decide) (by decide) (by decide)
